import Mathlib

/-!
Verification of the MQTT subscriber controller (src/subscriber/controller.py).
The embedding models the four connection callbacks and the main control flow:
the global receive counter, the termination event, the resubscribe recovery
path and the fatal-exit behaviour.
-/

namespace SwitchbotSubscriber

/-- Is `b` a UTF-8 continuation byte (0b10xxxxxx)? -/
def isUtf8Cont (b : Nat) : Bool := 0x80 ≤ b && b < 0xC0

/-- Strict UTF-8 decoding of a byte list, as Python's `bytes.decode("utf-8")`
used in `on_message_received`: rejects stray continuation bytes, overlong
encodings, surrogates and code points beyond U+10FFFF. `none` corresponds to
Python raising `UnicodeDecodeError`. -/
def utf8Chars : List Nat → Option (List Char)
  | [] => some []
  | b :: rest =>
    if b < 0x80 then
      (utf8Chars rest).map (fun cs => Char.ofNat b :: cs)
    else if b < 0xC2 then none
    else if b < 0xE0 then
      match rest with
      | b1 :: rest2 =>
        if isUtf8Cont b1 then
          (utf8Chars rest2).map (fun cs => Char.ofNat ((b - 0xC0) * 0x40 + (b1 - 0x80)) :: cs)
        else none
      | [] => none
    else if b < 0xF0 then
      match rest with
      | b1 :: b2 :: rest3 =>
        if isUtf8Cont b1 && isUtf8Cont b2 then
          let c := (b - 0xE0) * 0x1000 + (b1 - 0x80) * 0x40 + (b2 - 0x80)
          if c < 0x800 then none
          else if 0xD800 ≤ c && c < 0xE000 then none
          else (utf8Chars rest3).map (fun cs => Char.ofNat c :: cs)
        else none
      | _ => none
    else if b < 0xF5 then
      match rest with
      | b1 :: b2 :: b3 :: rest4 =>
        if isUtf8Cont b1 && isUtf8Cont b2 && isUtf8Cont b3 then
          let c := (b - 0xF0) * 0x40000 + (b1 - 0x80) * 0x1000 + (b2 - 0x80) * 0x40 + (b3 - 0x80)
          if c < 0x10000 || 0x10FFFF < c then none
          else (utf8Chars rest4).map (fun cs => Char.ofNat c :: cs)
        else none
      | _ => none
    else none

/-- `payload.decode("utf-8")`, returning the decoded text or `none` on a
`UnicodeDecodeError`. -/
def utf8Decode (bs : List Nat) : Option String :=
  (utf8Chars bs).map String.mk

/-- `awscrt.mqtt.ConnectReturnCode`. -/
inductive ConnectReturnCode
  | ACCEPTED
  | UNACCEPTABLE_PROTOCOL_VERSION
  | IDENTIFIER_REJECTED
  | SERVER_UNAVAILABLE
  | BAD_USERNAME_OR_PASSWORD
  | NOT_AUTHORIZED
deriving DecidableEq, BEq, Repr

/-- Printable name of a return code, as in the resumed log line. -/
def ConnectReturnCode.name : ConnectReturnCode → String
  | .ACCEPTED => "ACCEPTED"
  | .UNACCEPTABLE_PROTOCOL_VERSION => "UNACCEPTABLE_PROTOCOL_VERSION"
  | .IDENTIFIER_REJECTED => "IDENTIFIER_REJECTED"
  | .SERVER_UNAVAILABLE => "SERVER_UNAVAILABLE"
  | .BAD_USERNAME_OR_PASSWORD => "BAD_USERNAME_OR_PASSWORD"
  | .NOT_AUTHORIZED => "NOT_AUTHORIZED"

/-- The dispatcher's mutable globals in controller.py: `received_count`,
the `received_all_event` flag, how many times `received_all_event.set()` has
been called, and the ordered trace of decoded payloads handed to
`service.exec_switchbot`. -/
structure DispatchState where
  received_count : Nat
  gate_set : Bool
  set_calls : Nat
  processed : List String
deriving DecidableEq, Repr

/-- The state at process start: counter 0, event unset, nothing processed. -/
def initialState : DispatchState :=
  { received_count := 0, gate_set := false, set_calls := 0, processed := [] }

/-- A logging call (`logging.info` / `logging.error`). -/
inductive LogAction
  | info (msg : String)
  | error (msg : String)
deriving DecidableEq, Repr

/-- `on_connection_interrupted`: logs the error; the dispatcher state is
returned untouched. -/
def on_connection_interrupted (err : String) (s : DispatchState) :
    List LogAction × DispatchState :=
  ([LogAction.error ("Connection interrupted. error: " ++ err)], s)

/-- An observable action of `on_connection_resumed` on the connection object. -/
inductive ResumedAction
  | log (a : LogAction)
  | resubscribe_existing_topics
  | add_done_callback
  | wait_for_result
deriving DecidableEq, Repr

/-- Is this resumed-handler action merely a logging call? -/
def ResumedAction.isLog : ResumedAction → Bool
  | .log _ => true
  | _ => false

/-- `on_connection_resumed`: logs the event; when the return code is ACCEPTED
and the session did not persist it calls `resubscribe_existing_topics()` and
attaches `on_resubscribe_complete` with `add_done_callback` (it never waits
on the future synchronously). -/
def on_connection_resumed (return_code : ConnectReturnCode) (session_present : Bool) :
    List ResumedAction :=
  ResumedAction.log (LogAction.info
      ("Connection resumed. return_code: " ++ return_code.name ++
        " session_present: " ++ (if session_present then "True" else "False"))) ::
  (if return_code == ConnectReturnCode.ACCEPTED && !session_present then
    [ResumedAction.log (LogAction.info "Session did not persist. Resubscribing to existing topics..."),
     ResumedAction.resubscribe_existing_topics,
     ResumedAction.add_done_callback]
  else [])

/-- `on_resubscribe_complete`, applied to the `topics` list of the
resubscribe result (topic, granted QoS). Iterates the pairs in order; at the
first one whose QoS is `None` it calls `sys.exit(msg)`, modelled as
`some (1, msg)` (exit status 1 with the message); `none` means the handler
returns normally. -/
def on_resubscribe_complete (topics : List (String × Option Nat)) :
    Option (Nat × String) :=
  match topics with
  | [] => none
  | (topic, qos) :: rest =>
    match qos with
    | none => some (1, "Server rejected resubscribe to topic: " ++ topic)
    | some _ => on_resubscribe_complete rest

/-- `on_message_received`: decode the payload as UTF-8 (raising on failure),
call `service.exec_switchbot(text, state_repository)` (which may raise), then
increment `received_count` and, if it now equals `args.count`, call
`received_all_event.set()`. Returns the propagated exception (if any) together
with the dispatcher state after whatever side effects happened before the
raise. -/
def on_message_received (count : Int) (proc : String → Except String Unit)
    (payload : List Nat) (s : DispatchState) :
    Except String Unit × DispatchState :=
  match utf8Decode payload with
  | none => (Except.error "UnicodeDecodeError", s)
  | some text =>
    let s1 := { s with processed := s.processed ++ [text] }
    match proc text with
    | Except.error e => (Except.error e, s1)
    | Except.ok _ =>
      let s2 := { s1 with received_count := s1.received_count + 1 }
      if (s2.received_count : Int) = count then
        (Except.ok (), { s2 with gate_set := true, set_calls := s2.set_calls + 1 })
      else
        (Except.ok (), s2)

/-- Deliver a list of payloads in order to `on_message_received`, stopping at
the first exception. -/
def runMessages (count : Int) (proc : String → Except String Unit)
    (msgs : List (List Nat)) (s : DispatchState) :
    Except String Unit × DispatchState :=
  match msgs with
  | [] => (Except.ok (), s)
  | p :: rest =>
    match on_message_received count proc p s with
    | (Except.error e, s1) => (Except.error e, s1)
    | (Except.ok _, s1) => runMessages count proc rest s1

/-- A payload that the dispatcher can process without an exception: it decodes
as UTF-8 and the command processor returns normally on the decoded text. -/
def Deliverable (proc : String → Except String Unit) (p : List Nat) : Prop :=
  ∃ t, utf8Decode p = some t ∧ proc t = Except.ok ()

/-- An asynchronous notification delivered on the connection's event thread. -/
inductive Event
  | message (payload : List Nat)
  | interrupted (err : String)
  | resumed (rc : ConnectReturnCode) (sp : Bool)
  | resubscribe_complete (topics : List (String × Option Nat))

/-- Process-level state: the dispatcher globals plus whether `sys.exit` has
terminated the process (with which status and message). -/
structure SysState where
  dispatch : DispatchState
  exit_status : Option (Nat × String)
deriving DecidableEq, Repr

/-- The process state at startup. -/
def initialSys : SysState := { dispatch := initialState, exit_status := none }

/-- Handle one event. Once the process has exited nothing further runs;
otherwise messages go to `on_message_received`, interruptions to
`on_connection_interrupted`, resume events touch no dispatcher state, and a
resubscribe completion may exit the process via `on_resubscribe_complete`. -/
def stepEvent (count : Int) (proc : String → Except String Unit)
    (s : SysState) (e : Event) : SysState :=
  match s.exit_status with
  | some _ => s
  | none =>
    match e with
    | Event.message p =>
      { s with dispatch := (on_message_received count proc p s.dispatch).2 }
    | Event.interrupted err =>
      { s with dispatch := (on_connection_interrupted err s.dispatch).2 }
    | Event.resumed _ _ => s
    | Event.resubscribe_complete topics =>
      { s with exit_status := on_resubscribe_complete topics }

/-- Run a sequence of events in delivery order. -/
def runEvents (count : Int) (proc : String → Except String Unit)
    (events : List Event) (s : SysState) : SysState :=
  events.foldl (stepEvent count proc) s

/-- A step of the main control flow in the `__main__` block. -/
inductive MainAction
  | connect
  | subscribe
  | wait_gate
  | disconnect
deriving DecidableEq, Repr

/-- The `__main__` sequence: `connect()` then `connect_future.result()` (an
error there is an uncaught exception, exit status 1), then `subscribe` and
`subscribe_future.result()` (same on error), then wait on the event and
disconnect. Returns the actions performed and `some code` when the process
dies abnormally with that exit status. -/
def mainFlow (connectResult : Except String Unit)
    (subscribeResult : Except String Nat) : List MainAction × Option Nat :=
  match connectResult with
  | Except.error _ => ([MainAction.connect], some 1)
  | Except.ok _ =>
    match subscribeResult with
    | Except.error _ => ([MainAction.connect, MainAction.subscribe], some 1)
    | Except.ok _ =>
      ([MainAction.connect, MainAction.subscribe, MainAction.wait_gate,
        MainAction.disconnect], none)

/-! ### Helper lemmas about the dispatcher -/

/-- Unfolding of a successful `on_message_received` step. -/
theorem on_message_received_ok_eq (count : Int) (proc : String → Except String Unit)
    (p : List Nat) (s : DispatchState) (t : String)
    (ht : utf8Decode p = some t) (hp : proc t = Except.ok ()) :
    on_message_received count proc p s =
      (Except.ok (),
        if ((s.received_count + 1 : Nat) : Int) = count then
          { s with processed := s.processed ++ [t],
                   received_count := s.received_count + 1,
                   gate_set := true, set_calls := s.set_calls + 1 }
        else
          { s with processed := s.processed ++ [t],
                   received_count := s.received_count + 1 }) := by
  simp only [on_message_received, ht, hp]
  split <;> rfl

/-- Unfolding of `runMessages` on a cons. -/
theorem runMessages_cons (count : Int) (proc : String → Except String Unit)
    (p : List Nat) (rest : List (List Nat)) (s : DispatchState) :
    runMessages count proc (p :: rest) s =
      match on_message_received count proc p s with
      | (Except.error e, s1) => (Except.error e, s1)
      | (Except.ok _, s1) => runMessages count proc rest s1 := rfl

/-- A run of deliverable messages raises nothing, adds the number of messages
to the counter, appends the decoded texts to the processed trace in order, and
equals the left fold of the handler over the list. -/
theorem runMessages_ok (count : Int) (proc : String → Except String Unit) :
    ∀ (msgs : List (List Nat)) (s : DispatchState),
      (∀ p ∈ msgs, Deliverable proc p) →
      (runMessages count proc msgs s).1 = Except.ok () ∧
      (runMessages count proc msgs s).2.received_count = s.received_count + msgs.length ∧
      (runMessages count proc msgs s).2.processed = s.processed ++ msgs.filterMap utf8Decode ∧
      (runMessages count proc msgs s).2 =
        msgs.foldl (fun st q => (on_message_received count proc q st).2) s := by
  intro msgs
  induction msgs with
  | nil => intro s _; simp [runMessages]
  | cons p rest ih =>
    intro s h
    obtain ⟨t, ht, hp⟩ := h p (List.mem_cons_self p rest)
    have hrest : ∀ q ∈ rest, Deliverable proc q :=
      fun q hq => h q (List.mem_cons_of_mem p hq)
    rw [runMessages_cons, on_message_received_ok_eq count proc p s t ht hp]
    simp only [List.foldl_cons, on_message_received_ok_eq count proc p s t ht hp]
    by_cases hc : ((s.received_count + 1 : Nat) : Int) = count <;>
      · simp only [hc, if_pos, if_neg, if_true, if_false, ite_true, ite_false]
        obtain ⟨h1, h2, h3, h4⟩ := ih _ hrest
        refine ⟨h1, ?_, ?_, h4⟩
        · rw [h2]; simp; omega
        · rw [h3]; simp [ht]

/-- If the counter has already reached or passed the target, a run of
deliverable messages never touches the gate. -/
theorem runMessages_gate_above (count : Int) (proc : String → Except String Unit) :
    ∀ (msgs : List (List Nat)) (s : DispatchState),
      (∀ p ∈ msgs, Deliverable proc p) →
      count ≤ (s.received_count : Int) →
      (runMessages count proc msgs s).2.gate_set = s.gate_set ∧
      (runMessages count proc msgs s).2.set_calls = s.set_calls := by
  intro msgs
  induction msgs with
  | nil => intro s _ _; simp [runMessages]
  | cons p rest ih =>
    intro s h hc
    obtain ⟨t, ht, hp⟩ := h p (List.mem_cons_self p rest)
    have hrest : ∀ q ∈ rest, Deliverable proc q :=
      fun q hq => h q (List.mem_cons_of_mem p hq)
    rw [runMessages_cons, on_message_received_ok_eq count proc p s t ht hp]
    have hne : ¬ ((s.received_count + 1 : Nat) : Int) = count := by
      push_cast; omega
    simp only [hne, ite_false, if_neg, not_false_iff]
    exact ih _ hrest (by push_cast; omega)

/-- If even after all messages the counter stays strictly below the target,
the gate is never touched. -/
theorem runMessages_gate_below (count : Int) (proc : String → Except String Unit) :
    ∀ (msgs : List (List Nat)) (s : DispatchState),
      (∀ p ∈ msgs, Deliverable proc p) →
      ((s.received_count + msgs.length : Nat) : Int) < count →
      (runMessages count proc msgs s).2.gate_set = s.gate_set ∧
      (runMessages count proc msgs s).2.set_calls = s.set_calls := by
  intro msgs
  induction msgs with
  | nil => intro s _ _; simp [runMessages]
  | cons p rest ih =>
    intro s h hc
    obtain ⟨t, ht, hp⟩ := h p (List.mem_cons_self p rest)
    have hrest : ∀ q ∈ rest, Deliverable proc q :=
      fun q hq => h q (List.mem_cons_of_mem p hq)
    rw [runMessages_cons, on_message_received_ok_eq count proc p s t ht hp]
    have hne : ¬ ((s.received_count + 1 : Nat) : Int) = count := by
      push_cast; push_cast at hc; simp at hc; omega
    simp only [hne, ite_false, if_neg, not_false_iff]
    refine ih _ hrest ?_
    push_cast; push_cast at hc; simp at hc ⊢; omega

/-- If the run crosses the target from strictly below, the gate ends set and
`received_all_event.set()` is called exactly once during the run. -/
theorem runMessages_gate_hit (count : Int) (proc : String → Except String Unit) :
    ∀ (msgs : List (List Nat)) (s : DispatchState),
      (∀ p ∈ msgs, Deliverable proc p) →
      (s.received_count : Int) < count →
      count ≤ ((s.received_count + msgs.length : Nat) : Int) →
      (runMessages count proc msgs s).2.gate_set = true ∧
      (runMessages count proc msgs s).2.set_calls = s.set_calls + 1 := by
  intro msgs
  induction msgs with
  | nil =>
    intro s _ hlo hhi
    exfalso; simp at hhi; omega
  | cons p rest ih =>
    intro s h hlo hhi
    obtain ⟨t, ht, hp⟩ := h p (List.mem_cons_self p rest)
    have hrest : ∀ q ∈ rest, Deliverable proc q :=
      fun q hq => h q (List.mem_cons_of_mem p hq)
    rw [runMessages_cons, on_message_received_ok_eq count proc p s t ht hp]
    by_cases hc : ((s.received_count + 1 : Nat) : Int) = count
    · simp only [hc, ite_true, if_pos]
      have := runMessages_gate_above count proc rest
        { s with processed := s.processed ++ [t],
                 received_count := s.received_count + 1,
                 gate_set := true, set_calls := s.set_calls + 1 }
        hrest (by push_cast; push_cast at hc; omega)
      exact ⟨this.1, this.2⟩
    · simp only [hc, ite_false, if_neg, not_false_iff]
      refine ih _ hrest ?_ ?_
      · push_cast; push_cast at hc hlo; omega
      · push_cast; push_cast at hhi; simp at hhi ⊢; omega

/-- Once the process has exited, no event has any further effect. -/
theorem runEvents_exited (count : Int) (proc : String → Except String Unit) :
    ∀ (evs : List Event) (s : SysState), s.exit_status ≠ none →
      runEvents count proc evs s = s := by
  intro evs
  induction evs with
  | nil => intro s _; rfl
  | cons e rest ih =>
    intro s h
    have hstep : stepEvent count proc s e = s := by
      unfold stepEvent
      cases hs : s.exit_status with
      | none => exact absurd hs h
      | some v => rfl
    show List.foldl (stepEvent count proc) (stepEvent count proc s e) rest = s
    rw [hstep]
    exact ih s h

/-- Delivering messages through the event loop while the process is alive is
exactly `runMessages`, provided every message is deliverable. -/
theorem runEvents_messages (count : Int) (proc : String → Except String Unit) :
    ∀ (msgs : List (List Nat)) (d : DispatchState),
      (∀ p ∈ msgs, Deliverable proc p) →
      runEvents count proc (msgs.map Event.message)
          { dispatch := d, exit_status := none }
        = { dispatch := (runMessages count proc msgs d).2, exit_status := none } := by
  intro msgs
  induction msgs with
  | nil => intro d _; rfl
  | cons p rest ih =>
    intro d h
    obtain ⟨t, ht, hp⟩ := h p (List.mem_cons_self p rest)
    have hrest : ∀ q ∈ rest, Deliverable proc q :=
      fun q hq => h q (List.mem_cons_of_mem p hq)
    have hfold : runEvents count proc ((p :: rest).map Event.message)
          { dispatch := d, exit_status := none }
        = runEvents count proc (rest.map Event.message)
            { dispatch := (on_message_received count proc p d).2,
              exit_status := none } := rfl
    rw [hfold, ih _ hrest, runMessages_cons,
      on_message_received_ok_eq count proc p d t ht hp]

/-- A resubscribe result in which every topic has a granted QoS makes
`on_resubscribe_complete` return normally. -/
theorem on_resubscribe_complete_granted :
    ∀ (topics : List (String × Option Nat)),
      (∀ p ∈ topics, p.2 ≠ none) → on_resubscribe_complete topics = none := by
  intro topics
  induction topics with
  | nil => intro _; rfl
  | cons hd rest ih =>
    intro h
    obtain ⟨topic, qos⟩ := hd
    cases qos with
    | none => exact absurd rfl (h (topic, none) (List.mem_cons_self _ _))
    | some q =>
      show on_resubscribe_complete rest = none
      exact ih fun p hp => h p (List.mem_cons_of_mem _ hp)

/-- If some topic's grant is missing, `on_resubscribe_complete` exits with
status 1 and a message naming a topic whose grant is missing. -/
theorem on_resubscribe_complete_rejected :
    ∀ (topics : List (String × Option Nat)) (t : String),
      (t, (none : Option Nat)) ∈ topics →
      ∃ t', (t', (none : Option Nat)) ∈ topics ∧
        on_resubscribe_complete topics
          = some (1, "Server rejected resubscribe to topic: " ++ t') := by
  intro topics
  induction topics with
  | nil => intro t h; exact absurd h (List.not_mem_nil _)
  | cons hd rest ih =>
    intro t h
    obtain ⟨topic, qos⟩ := hd
    cases qos with
    | none => exact ⟨topic, List.mem_cons_self _ _, rfl⟩
    | some q =>
      have hr : (t, (none : Option Nat)) ∈ rest := by
        rcases List.mem_cons.mp h with heq | hm
        · exact absurd (congrArg Prod.snd heq) (by simp)
        · exact hm
      obtain ⟨t', ht', heq⟩ := ih t hr
      exact ⟨t', List.mem_cons_of_mem _ ht', heq⟩

/-! ### Claim theorems -/

/-- Claim C1: for every non-zero target count N, after exactly N invocations
of the message-received handler the termination event (received_all_event) is
set; it is not set after any earlier invocation; and it is set by the
dispatcher exactly once over the whole run (deliveries beyond N do not set it
again). -/
theorem gate_signaled_exactly_at_target (N : Nat) (hN : N ≠ 0)
    (proc : String → Except String Unit) (msgs : List (List Nat))
    (h : ∀ p ∈ msgs, Deliverable proc p) :
    (msgs.length < N →
      (runMessages (N : Int) proc msgs initialState).2.gate_set = false ∧
      (runMessages (N : Int) proc msgs initialState).2.set_calls = 0) ∧
    (N ≤ msgs.length →
      (runMessages (N : Int) proc msgs initialState).2.gate_set = true ∧
      (runMessages (N : Int) proc msgs initialState).2.set_calls = 1) := by
  constructor
  · intro hlt
    have := runMessages_gate_below (N : Int) proc msgs initialState h
      (by simp [initialState]; omega)
    simpa [initialState] using this
  · intro hge
    have := runMessages_gate_hit (N : Int) proc msgs initialState h
      (by simp [initialState]; omega) (by simp [initialState]; omega)
    simpa [initialState] using this

/-- Witness for C1 at N = 2 with two ASCII messages. -/
theorem gate_signaled_exactly_at_target_witness :
    (runMessages (2 : Int) (fun _ => Except.ok ()) [[104], [105]] initialState).2.gate_set = true ∧
    (runMessages (2 : Int) (fun _ => Except.ok ()) [[104], [105]] initialState).2.set_calls = 1 := by
  have hd : ∀ p ∈ [[104], [105]], Deliverable (fun _ : String => Except.ok ()) p := by
    intro p hp
    simp only [List.mem_cons, List.not_mem_nil, or_false] at hp
    rcases hp with rfl | rfl
    · exact ⟨"h", by decide, rfl⟩
    · exact ⟨"i", by decide, rfl⟩
  exact (gate_signaled_exactly_at_target 2 (by decide) (fun _ => Except.ok ())
    [[104], [105]] hd).2 (by decide)

/-- Claim C2: when the target count is zero, the termination event is never
set by the message-received handler, for every number of delivered messages. -/
theorem gate_never_set_when_count_zero
    (proc : String → Except String Unit) (msgs : List (List Nat))
    (h : ∀ p ∈ msgs, Deliverable proc p) :
    (runMessages (0 : Int) proc msgs initialState).2.gate_set = false ∧
    (runMessages (0 : Int) proc msgs initialState).2.set_calls = 0 := by
  have := runMessages_gate_above (0 : Int) proc msgs initialState h
    (by simp [initialState])
  simpa [initialState] using this

/-- Witness for C2 with three messages delivered. -/
theorem gate_never_set_when_count_zero_witness :
    (runMessages (0 : Int) (fun _ => Except.ok ()) [[104], [105], [106]] initialState).2.gate_set
      = false ∧
    (runMessages (0 : Int) (fun _ => Except.ok ()) [[104], [105], [106]] initialState).2.set_calls
      = 0 := by
  have hd : ∀ p ∈ [[104], [105], [106]], Deliverable (fun _ : String => Except.ok ()) p := by
    intro p hp
    simp only [List.mem_cons, List.not_mem_nil, or_false] at hp
    rcases hp with rfl | rfl | rfl
    · exact ⟨"h", by decide, rfl⟩
    · exact ⟨"i", by decide, rfl⟩
    · exact ⟨"j", by decide, rfl⟩
  exact gate_never_set_when_count_zero (fun _ => Except.ok ()) [[104], [105], [106]] hd

/-- Claim C10: for every negative target count, the termination event is never
set by the message-received handler no matter how many messages are delivered:
a negative count behaves like unbounded mode. -/
theorem gate_never_set_when_count_negative (count : Int) (hneg : count < 0)
    (proc : String → Except String Unit) (msgs : List (List Nat))
    (h : ∀ p ∈ msgs, Deliverable proc p) :
    (runMessages count proc msgs initialState).2.gate_set = false ∧
    (runMessages count proc msgs initialState).2.set_calls = 0 := by
  have := runMessages_gate_above count proc msgs initialState h
    (by simp [initialState]; omega)
  simpa [initialState] using this

/-- Witness for C10 at count = -1 with two messages delivered. -/
theorem gate_never_set_when_count_negative_witness :
    (runMessages (-1 : Int) (fun _ => Except.ok ()) [[104], [105]] initialState).2.gate_set
      = false ∧
    (runMessages (-1 : Int) (fun _ => Except.ok ()) [[104], [105]] initialState).2.set_calls
      = 0 := by
  have hd : ∀ p ∈ [[104], [105]], Deliverable (fun _ : String => Except.ok ()) p := by
    intro p hp
    simp only [List.mem_cons, List.not_mem_nil, or_false] at hp
    rcases hp with rfl | rfl
    · exact ⟨"h", by decide, rfl⟩
    · exact ⟨"i", by decide, rfl⟩
  exact gate_never_set_when_count_negative (-1) (by decide) (fun _ => Except.ok ())
    [[104], [105]] hd

/-- Claim C5: on a message whose payload decodes and whose processing
succeeds, the handler raises nothing, hands exactly the decoded text to the
command processor exactly once (the processed trace grows by that one text),
and afterwards increments the receive counter by exactly one. -/
theorem handler_decodes_invokes_then_increments (count : Int)
    (proc : String → Except String Unit) (payload : List Nat) (s : DispatchState)
    (t : String) (ht : utf8Decode payload = some t) (hp : proc t = Except.ok ()) :
    (on_message_received count proc payload s).1 = Except.ok () ∧
    (on_message_received count proc payload s).2.processed = s.processed ++ [t] ∧
    (on_message_received count proc payload s).2.received_count = s.received_count + 1 := by
  rw [on_message_received_ok_eq count proc payload s t ht hp]
  refine ⟨rfl, ?_, ?_⟩ <;> (split <;> rfl)

/-- Witness for C5 on the payload "hi". -/
theorem handler_decodes_invokes_then_increments_witness :
    (on_message_received 10 (fun _ => Except.ok ()) [104, 105] initialState).1 = Except.ok () ∧
    (on_message_received 10 (fun _ => Except.ok ()) [104, 105] initialState).2.processed
      = ["hi"] ∧
    (on_message_received 10 (fun _ => Except.ok ()) [104, 105] initialState).2.received_count
      = 1 := by
  have := handler_decodes_invokes_then_increments 10 (fun _ => Except.ok ())
    [104, 105] initialState "hi" (by decide) rfl
  simpa [initialState] using this

/-- Claim C8: message order is preserved. Dispatching a sequence of
deliverable messages hands the command processor their decoded payloads in
delivery order, and the whole run equals the left fold of the handler over
the list in that order. -/
theorem message_order_preserved (count : Int)
    (proc : String → Except String Unit) (msgs : List (List Nat))
    (h : ∀ p ∈ msgs, Deliverable proc p) :
    (runMessages count proc msgs initialState).2.processed = msgs.filterMap utf8Decode ∧
    (runMessages count proc msgs initialState).2 =
      msgs.foldl (fun st q => (on_message_received count proc q st).2) initialState := by
  have := runMessages_ok count proc msgs initialState h
  exact ⟨by simpa [initialState] using this.2.2.1, this.2.2.2⟩

/-- Witness for C8 on three ASCII messages. -/
theorem message_order_preserved_witness :
    (runMessages 10 (fun _ => Except.ok ()) [[104], [105], [106]] initialState).2.processed
      = ["h", "i", "j"] := by
  have hd : ∀ p ∈ [[104], [105], [106]], Deliverable (fun _ : String => Except.ok ()) p := by
    intro p hp
    simp only [List.mem_cons, List.not_mem_nil, or_false] at hp
    rcases hp with rfl | rfl | rfl
    · exact ⟨"h", by decide, rfl⟩
    · exact ⟨"i", by decide, rfl⟩
    · exact ⟨"j", by decide, rfl⟩
  have := (message_order_preserved 10 (fun _ => Except.ok ()) [[104], [105], [106]] hd).1
  rw [this]; decide

/-- Claim C9: if the payload fails to decode as UTF-8, or the command
processor raises, the handler propagates the exception and its invocation
leaves the receive counter and the termination event unchanged. -/
theorem failed_message_leaves_state_unchanged (count : Int)
    (proc : String → Except String Unit) (payload : List Nat) (s : DispatchState) :
    (utf8Decode payload = none →
      on_message_received count proc payload s = (Except.error "UnicodeDecodeError", s)) ∧
    (∀ t e, utf8Decode payload = some t → proc t = Except.error e →
      (on_message_received count proc payload s).1 = Except.error e ∧
      (on_message_received count proc payload s).2.received_count = s.received_count ∧
      (on_message_received count proc payload s).2.gate_set = s.gate_set ∧
      (on_message_received count proc payload s).2.set_calls = s.set_calls) := by
  constructor
  · intro hnone
    simp [on_message_received, hnone]
  · intro t e ht hp
    simp [on_message_received, ht, hp]

/-- Witness for C9: an invalid byte 0xFF, and a processor failure on "h". -/
theorem failed_message_leaves_state_unchanged_witness :
    on_message_received 10 (fun _ => Except.error "boom") [255] initialState
      = (Except.error "UnicodeDecodeError", initialState) ∧
    (on_message_received 10 (fun _ => Except.error "boom") [104] initialState).2.received_count
      = 0 ∧
    (on_message_received 10 (fun _ => Except.error "boom") [104] initialState).2.gate_set
      = false := by
  refine ⟨?_, ?_, ?_⟩
  · exact (failed_message_leaves_state_unchanged 10 (fun _ => Except.error "boom")
      [255] initialState).1 (by decide)
  · have := (failed_message_leaves_state_unchanged 10 (fun _ => Except.error "boom")
      [104] initialState).2 "h" "boom" (by decide) rfl
    simpa [initialState] using this.2.1
  · have := (failed_message_leaves_state_unchanged 10 (fun _ => Except.error "boom")
      [104] initialState).2 "h" "boom" (by decide) rfl
    simpa [initialState] using this.2.2.1

/-- Claim C3: the connection-resumed handler calls
`resubscribe_existing_topics` exactly once, and attaches the completion
callback rather than waiting on the future, precisely when the return code is
ACCEPTED and the session did not persist; in every other case it performs no
action beyond logging. -/
theorem resumed_resubscribes_iff_accepted_without_session
    (rc : ConnectReturnCode) (sp : Bool) :
    ((on_connection_resumed rc sp).count ResumedAction.resubscribe_existing_topics
        = if rc = ConnectReturnCode.ACCEPTED ∧ sp = false then 1 else 0) ∧
    ((on_connection_resumed rc sp).count ResumedAction.add_done_callback
        = if rc = ConnectReturnCode.ACCEPTED ∧ sp = false then 1 else 0) ∧
    ((on_connection_resumed rc sp).count ResumedAction.wait_for_result = 0) ∧
    (((on_connection_resumed rc sp).filter fun a => !a.isLog).length
        = if rc = ConnectReturnCode.ACCEPTED ∧ sp = false then 2 else 0) := by
  cases rc <;> cases sp <;> decide

/-- Instance of C3 at an accepted resume without a persisted session and at a
resume with a persisted session. -/
theorem resumed_resubscribes_iff_accepted_without_session_witness :
    (on_connection_resumed ConnectReturnCode.ACCEPTED false).count
        ResumedAction.resubscribe_existing_topics = 1 ∧
    (on_connection_resumed ConnectReturnCode.ACCEPTED true).count
        ResumedAction.resubscribe_existing_topics = 0 := by
  refine ⟨?_, ?_⟩
  · have h := (resumed_resubscribes_iff_accepted_without_session
      ConnectReturnCode.ACCEPTED false).1
    simpa using h
  · have h := (resumed_resubscribes_iff_accepted_without_session
      ConnectReturnCode.ACCEPTED true).1
    simpa using h

/-- Claim C4: if the resubscribe result contains a topic whose granted QoS is
`None`, the handler exits the process with status 1 (non-zero), its message
naming a rejected topic, and — the process being gone — no later event
dispatches any further message. -/
theorem rejected_resubscribe_exits_process
    (topics : List (String × Option Nat)) (t : String)
    (hmem : (t, (none : Option Nat)) ∈ topics) :
    (∃ t', (t', (none : Option Nat)) ∈ topics ∧
      on_resubscribe_complete topics
        = some (1, "Server rejected resubscribe to topic: " ++ t')) ∧
    (∀ (count : Int) (proc : String → Except String Unit)
        (evs : List Event) (d : DispatchState),
      (runEvents count proc (Event.resubscribe_complete topics :: evs)
          { dispatch := d, exit_status := none }).dispatch = d ∧
      (runEvents count proc (Event.resubscribe_complete topics :: evs)
          { dispatch := d, exit_status := none }).exit_status ≠ none) := by
  obtain ⟨t', ht', heq⟩ := on_resubscribe_complete_rejected topics t hmem
  refine ⟨⟨t', ht', heq⟩, ?_⟩
  intro count proc evs d
  have hstep : stepEvent count proc { dispatch := d, exit_status := none }
      (Event.resubscribe_complete topics)
      = { dispatch := d, exit_status := on_resubscribe_complete topics } := rfl
  have hfold : runEvents count proc (Event.resubscribe_complete topics :: evs)
        { dispatch := d, exit_status := none }
      = runEvents count proc evs
          { dispatch := d, exit_status := on_resubscribe_complete topics } := rfl
  rw [hfold, runEvents_exited count proc evs _ (by rw [heq]; simp)]
  exact ⟨rfl, by rw [heq]; simp⟩

/-- Witness for C4: second topic rejected; a later message is not dispatched. -/
theorem rejected_resubscribe_exits_process_witness :
    on_resubscribe_complete [("a", (some 1 : Option Nat)), ("b", none)]
      = some (1, "Server rejected resubscribe to topic: b") ∧
    (runEvents 10 (fun _ => Except.ok ())
        [Event.resubscribe_complete [("a", (some 1 : Option Nat)), ("b", none)],
         Event.message [104]]
        { dispatch := initialState, exit_status := none }).dispatch
      = initialState := by
  have h := rejected_resubscribe_exits_process
    [("a", (some 1 : Option Nat)), ("b", none)] "b" (by simp)
  obtain ⟨⟨t', ht', heq⟩, hrun⟩ := h
  constructor
  · simp only [List.mem_cons, List.not_mem_nil, or_false] at ht'
    rcases ht' with h1 | h2
    · injection h1 with _ hb
      exact absurd hb (by simp)
    · injection h2 with ha _
      subst ha
      rw [heq]
      rfl
  · exact (hrun 10 (fun _ => Except.ok ()) [Event.message [104]] initialState).1

/-- Claim C6: the connection-interrupted handler only logs the error — the
dispatcher state it returns is identical to the one it was given — and over a
whole interruption-and-recovery cycle (interrupt, accepted resume without a
session, fully granted resubscribe) the counter continues from its prior
value: after m1 messages, the cycle, and m2 messages, the counter is
m1.length + m2.length. -/
theorem interruption_has_no_side_effect (err : String) (s : DispatchState)
    (count : Int) (proc : String → Except String Unit)
    (m1 m2 : List (List Nat)) (grants : List (String × Option Nat))
    (h1 : ∀ p ∈ m1, Deliverable proc p) (h2 : ∀ p ∈ m2, Deliverable proc p)
    (hg : ∀ p ∈ grants, p.2 ≠ none) :
    on_connection_interrupted err s
      = ([LogAction.error ("Connection interrupted. error: " ++ err)], s) ∧
    (runEvents count proc
        (m1.map Event.message ++
          [Event.interrupted err,
           Event.resumed ConnectReturnCode.ACCEPTED false,
           Event.resubscribe_complete grants] ++
          m2.map Event.message) initialSys).dispatch.received_count
      = m1.length + m2.length := by
  refine ⟨rfl, ?_⟩
  have e1 : runEvents count proc (m1.map Event.message) initialSys
      = { dispatch := (runMessages count proc m1 initialState).2,
          exit_status := none } := runEvents_messages count proc m1 initialState h1
  have e2 : ∀ d : DispatchState,
      runEvents count proc
          [Event.interrupted err,
           Event.resumed ConnectReturnCode.ACCEPTED false,
           Event.resubscribe_complete grants]
          { dispatch := d, exit_status := none }
        = { dispatch := d, exit_status := none } := by
    intro d
    show { dispatch := d,
           exit_status := on_resubscribe_complete grants } = (_ : SysState)
    rw [on_resubscribe_complete_granted grants hg]
  have hsplit : runEvents count proc
      (m1.map Event.message ++
        [Event.interrupted err,
         Event.resumed ConnectReturnCode.ACCEPTED false,
         Event.resubscribe_complete grants] ++
        m2.map Event.message) initialSys
      = runEvents count proc (m2.map Event.message)
          (runEvents count proc
            [Event.interrupted err,
             Event.resumed ConnectReturnCode.ACCEPTED false,
             Event.resubscribe_complete grants]
            (runEvents count proc (m1.map Event.message) initialSys)) := by
    simp [runEvents, List.foldl_append]
  have c1 := (runMessages_ok count proc m1 initialState h1).2.1
  have c2 := (runMessages_ok count proc m2 (runMessages count proc m1 initialState).2 h2).2.1
  rw [hsplit, e1, e2, runEvents_messages count proc m2 _ h2]
  show (runMessages count proc m2 (runMessages count proc m1 initialState).2).2.received_count
      = m1.length + m2.length
  rw [c2, c1]
  simp [initialState]

/-- Witness for C6: one message, an interruption-and-recovery cycle, then one
more message; the counter ends at 2. -/
theorem interruption_has_no_side_effect_witness :
    on_connection_interrupted "x" initialState
      = ([LogAction.error "Connection interrupted. error: x"], initialState) ∧
    (runEvents 10 (fun _ => Except.ok ())
        ([[104]].map Event.message ++
          [Event.interrupted "x",
           Event.resumed ConnectReturnCode.ACCEPTED false,
           Event.resubscribe_complete [("test/topic", some 1)]] ++
          [[105]].map Event.message) initialSys).dispatch.received_count = 2 := by
  have h := interruption_has_no_side_effect "x" initialState 10 (fun _ => Except.ok ())
    [[104]] [[105]] [("test/topic", some 1)]
    (by intro p hp; simp only [List.mem_cons, List.not_mem_nil, or_false] at hp
        subst hp; exact ⟨"h", by decide, rfl⟩)
    (by intro p hp; simp only [List.mem_cons, List.not_mem_nil, or_false] at hp
        subst hp; exact ⟨"i", by decide, rfl⟩)
    (by intro p hp; simp only [List.mem_cons, List.not_mem_nil, or_false] at hp
        subst hp; simp)
  exact ⟨h.1, h.2⟩

/-- Claim C7: when `connect()` is rejected, the uncaught error terminates the
main flow with exit status 1 (non-zero) and no subscribe request is ever
attempted, whatever the subscribe call would have returned. -/
theorem rejected_connect_exits_before_subscribe (e : String)
    (subscribeResult : Except String Nat) :
    (mainFlow (Except.error e) subscribeResult).2 = some 1 ∧
    MainAction.subscribe ∉ (mainFlow (Except.error e) subscribeResult).1 := by
  constructor
  · rfl
  · intro hmem
    simp [mainFlow] at hmem

/-- Instance of C7 at a concrete rejection message. -/
theorem rejected_connect_exits_before_subscribe_witness :
    (mainFlow (Except.error "connection refused") (Except.ok 0)).2 = some 1 ∧
    MainAction.subscribe ∉ (mainFlow (Except.error "connection refused") (Except.ok 0)).1 :=
  rejected_connect_exits_before_subscribe "connection refused" (Except.ok 0)

end SwitchbotSubscriber
